import Mathlib

/-!
Verification of the decorator, factory and singleton examples of the
DesignPattern repository, shallowly embedded from the Python sources.
-/

namespace DesignPattern

/-! ## Coffee shop decorator chain — src/structural/decorator/Eg1_Coffee_Shop.py

`Beverage` is the class hierarchy: `coffee` is the concrete base
component (`Coffee`), `addon` is the decorator base (`AddonDecorator`,
which forwards both operations unchanged), and `milk`, `sugar`,
`caramel` are the concrete decorators.  `cost` and `description`
transcribe each class's methods. -/

inductive Beverage : Type
  | coffee : Beverage
  | addon : Beverage → Beverage
  | milk : Beverage → Beverage
  | sugar : Beverage → Beverage
  | caramel : Beverage → Beverage
  deriving DecidableEq, Repr

def cost : Beverage → Nat
  | .coffee => 50
  | .addon b => cost b
  | .milk b => cost b + 10
  | .sugar b => cost b + 5
  | .caramel b => cost b + 20

def description : Beverage → String
  | .coffee => "Plain Coffee"
  | .addon b => description b
  | .milk b => description b ++ " + Milk"
  | .sugar b => description b ++ " + Sugar"
  | .caramel b => description b ++ " + Caramel"

/-- A choice of concrete decorator, as picked by the client code. -/
inductive Deco : Type
  | milk | sugar | caramel
  deriving DecidableEq, Repr

def Deco.wrap : Deco → Beverage → Beverage
  | .milk, b => .milk b
  | .sugar, b => .sugar b
  | .caramel, b => .caramel b

/-- The additive cost contribution each concrete decorator declares. -/
def Deco.delta : Deco → Nat
  | .milk => 10
  | .sugar => 5
  | .caramel => 20

/-- The description suffix each concrete decorator appends. -/
def Deco.suffix : Deco → String
  | .milk => " + Milk"
  | .sugar => " + Sugar"
  | .caramel => " + Caramel"

/-- Wrap a base in a sequence of decorators, first element innermost. -/
def buildChain (b : Beverage) : List Deco → Beverage
  | [] => b
  | d :: ds => buildChain (d.wrap b) ds

/-- Concatenation of the suffixes of a decorator sequence, in order. -/
def concatSuffixes : List Deco → String
  | [] => ""
  | d :: ds => d.suffix ++ concatSuffixes ds

theorem cost_wrap (d : Deco) (b : Beverage) :
    cost (d.wrap b) = cost b + d.delta := by
  cases d <;> rfl

theorem description_wrap (d : Deco) (b : Beverage) :
    description (d.wrap b) = description b ++ d.suffix := by
  cases d <;> rfl

theorem cost_buildChain (b : Beverage) (ds : List Deco) :
    cost (buildChain b ds) = cost b + (ds.map Deco.delta).sum := by
  induction ds generalizing b with
  | nil => simp [buildChain]
  | cons d ds ih =>
      simp [buildChain, ih, cost_wrap, Nat.add_assoc]

theorem description_buildChain (b : Beverage) (ds : List Deco) :
    description (buildChain b ds) = description b ++ concatSuffixes ds := by
  induction ds generalizing b with
  | nil => simp [buildChain, concatSuffixes]
  | cons d ds ih =>
      simp [buildChain, concatSuffixes, ih, description_wrap,
        String.append_assoc]

/-! ## Notification decorator chain — src/structural/decorator/Eg2_Notification_System.py

`Notifier` is the hierarchy: `basic` is `BasicNotifier`, `deco` is the
decorator base `NotificationDecorator` (whose `send` only delegates),
and `email`, `sms`, `push` are the concrete decorators, each of which
first calls `super().send(message)` (which delegates to the wrapped
notifier) and then prints its own line.  `sendTrace` records the
console lines printed by `send`, in order. -/

inductive Notifier : Type
  | basic : Notifier
  | deco : Notifier → Notifier
  | email : Notifier → Notifier
  | sms : Notifier → Notifier
  | push : Notifier → Notifier
  deriving DecidableEq, Repr

def basicLine (m : String) : String := "Basic Notificatio: " ++ m

def emailLine (m : String) : String := "📧 Sending Email: " ++ m

def smsLine (m : String) : String := "📱 Sending SMS: " ++ m

def pushLine (m : String) : String := "🔔 Sending Push Notification: " ++ m

def sendTrace : Notifier → String → List String
  | .basic, m => [basicLine m]
  | .deco n, m => sendTrace n m
  | .email n, m => sendTrace n m ++ [emailLine m]
  | .sms n, m => sendTrace n m ++ [smsLine m]
  | .push n, m => sendTrace n m ++ [pushLine m]

/-! ## Factory — src/creational/factory.py

`NotifObj` enumerates the objects the module can construct: the three
concrete `Notification` products and the three concrete
`NotificationFactory` creators.  `get_notification_factory` transcribes
the function of the same name: despite its declared return type it
returns product instances, and raises `ValueError` (modelled as
`Except.error`) on any unrecognized type string. -/

inductive NotifObj : Type
  | emailNotification | smsNotification | pushNotification
  | emailNotificationFactory | smsNotificationFactory | pushNotificationFactory
  deriving DecidableEq, Repr

/-- Whether the object is a concrete `Notification` product (rather
than a `NotificationFactory` creator). -/
def NotifObj.isProduct : NotifObj → Bool
  | .emailNotification | .smsNotification | .pushNotification => true
  | _ => false

/-- The console line `notify(message)` prints; factories define no
`notify`, modelled as `none`. -/
def NotifObj.notify : NotifObj → String → Option String
  | .emailNotification, m => some ("📧 Sending Email: " ++ m)
  | .smsNotification, m => some ("📱 Sending SMS: " ++ m)
  | .pushNotification, m => some ("📲 Sending Push Notification: " ++ m)
  | _, _ => none

def get_notification_factory (t : String) : Except String NotifObj :=
  if t = "email" then .ok .emailNotification
  else if t = "sms" then .ok .smsNotification
  else if t = "push" then .ok .pushNotification
  else .error "Invalid notification type"

/-! ## Singleton — src/creational/singleton.py

`Singleton.__new__` checks the class attribute `_instance` under a
lock; calls are therefore serialized and modelled sequentially.  The
instance is identified by the id the allocator would hand out:
`singletonNew st fresh` runs one call of `__new__` in class state `st`
where `fresh` is the id a new allocation would get, returning the id of
the returned object and the updated class state. -/

def singletonNew (st : Option Nat) (fresh : Nat) : Nat × Option Nat :=
  match st with
  | none => (fresh, some fresh)
  | some i => (i, some i)

/-- Run a sequence of `Singleton()` calls, threading the class state;
the list carries the fresh id each call would allocate.  Returns the
ids of the returned objects, in call order. -/
def runNews (st : Option Nat) : List Nat → List Nat
  | [] => []
  | f :: fs =>
      let p := singletonNew st f
      p.1 :: runNews p.2 fs

theorem runNews_some (i : Nat) (fs : List Nat) :
    runNews (some i) fs = fs.map (fun _ => i) := by
  induction fs with
  | nil => rfl
  | cons f fs ih => simp [runNews, singletonNew, ih]

/-- Nesting depth of a beverage chain; wrapping strictly increases it,
which shows a wrap yields a new object rather than the old one. -/
def depth : Beverage → Nat
  | .coffee => 0
  | .addon b => depth b + 1
  | .milk b => depth b + 1
  | .sugar b => depth b + 1
  | .caramel b => depth b + 1

theorem depth_wrap (d : Deco) (b : Beverage) :
    depth (d.wrap b) = depth b + 1 := by
  cases d <;> rfl

/-- The beverage stored in a decorator's `beverage` field, if any. -/
def unwrap : Beverage → Option Beverage
  | .coffee => none
  | .addon b => some b
  | .milk b => some b
  | .sugar b => some b
  | .caramel b => some b

/-! ## Claims -/

/-- C1: for every finite sequence of concrete decorators from
{Milk, Sugar, Caramel} wrapped in order around a `Coffee` base, the
chain's `cost()` is the base cost 50 plus the sum of the decorators'
additive contributions (10 per Milk, 5 per Sugar, 20 per Caramel), and
its `description()` is the base description followed by each
decorator's suffix in wrap order. -/
theorem coffee_chain_fold (ds : List Deco) :
    cost (buildChain Beverage.coffee ds) = 50 + (ds.map Deco.delta).sum ∧
    description (buildChain Beverage.coffee ds) =
      "Plain Coffee" ++ concatSuffixes ds := by
  exact ⟨cost_buildChain Beverage.coffee ds,
    description_buildChain Beverage.coffee ds⟩

/-- C2: wrapping `Coffee` in `Milk`, then `Sugar`, then `Caramel`
yields a chain with `cost()` exactly 85 and `description()` exactly
"Plain Coffee + Milk + Sugar + Caramel". -/
theorem deluxe_coffee_eval :
    cost (Beverage.caramel (Beverage.sugar (Beverage.milk Beverage.coffee)))
      = 85 ∧
    description
      (Beverage.caramel (Beverage.sugar (Beverage.milk Beverage.coffee)))
      = "Plain Coffee + Milk + Sugar + Caramel" :=
  ⟨rfl, rfl⟩

/-- C3: `get_notification_factory` rejects every type string outside
{"email", "sms", "push"} with the `ValueError` "Invalid notification
type"; no notification object is constructed. -/
theorem factory_rejects_unknown (t : String)
    (h1 : t ≠ "email") (h2 : t ≠ "sms") (h3 : t ≠ "push") :
    get_notification_factory t = .error "Invalid notification type" := by
  simp [get_notification_factory, h1, h2, h3]

/-- Witness for C3 at the concrete unrecognized string "fax". -/
theorem factory_rejects_unknown_witness :
    ("fax" ≠ "email" ∧ "fax" ≠ "sms" ∧ "fax" ≠ "push") ∧
    get_notification_factory "fax" = .error "Invalid notification type" :=
  ⟨⟨by decide, by decide, by decide⟩,
    factory_rejects_unknown "fax" (by decide) (by decide) (by decide)⟩

/-- C4: wrapping any beverage in one concrete decorator changes the
results by exactly that decorator's declared contribution — the cost
grows by the declared delta (so the difference of costs is the delta)
and the description gains exactly the declared suffix; in particular
milk around the cost-50 base gives cost 60. -/
theorem single_wrap_delta (d : Deco) (b : Beverage) :
    cost (d.wrap b) = cost b + d.delta ∧
    cost (d.wrap b) - cost b = d.delta ∧
    description (d.wrap b) = description b ++ d.suffix ∧
    cost (Beverage.milk Beverage.coffee) = 60 := by
  refine ⟨cost_wrap d b, ?_, description_wrap d b, rfl⟩
  rw [cost_wrap d b]
  omega

/-- C5: chain construction is deterministic and respects operation
equivalence of bases — two chains built from the same sequence of
decorator choices over bases with equal `cost()` and equal
`description()` have equal `cost()` and equal `description()`. -/
theorem chain_construction_deterministic (ds : List Deco)
    (b1 b2 : Beverage) (hc : cost b1 = cost b2)
    (hd : description b1 = description b2) :
    cost (buildChain b1 ds) = cost (buildChain b2 ds) ∧
    description (buildChain b1 ds) = description (buildChain b2 ds) := by
  constructor
  · rw [cost_buildChain, cost_buildChain, hc]
  · rw [description_buildChain, description_buildChain, hd]

/-- Witness for C5: `Coffee` and `AddonDecorator(Coffee)` are
operation-equivalent but distinct bases; milk chains over them agree. -/
theorem chain_construction_deterministic_witness :
    (cost Beverage.coffee = cost (Beverage.addon Beverage.coffee) ∧
      description Beverage.coffee
        = description (Beverage.addon Beverage.coffee)) ∧
    (cost (buildChain Beverage.coffee [Deco.milk])
        = cost (buildChain (Beverage.addon Beverage.coffee) [Deco.milk]) ∧
      description (buildChain Beverage.coffee [Deco.milk])
        = description (buildChain (Beverage.addon Beverage.coffee)
            [Deco.milk])) :=
  ⟨⟨rfl, rfl⟩,
    chain_construction_deterministic [Deco.milk] Beverage.coffee
      (Beverage.addon Beverage.coffee) rfl rfl⟩

/-- C6: the abstract decorator bases forward every operation to the
wrapped component unchanged: `AddonDecorator`'s `cost()` and
`description()` return exactly the wrapped beverage's, and
`NotificationDecorator`'s `send(m)` performs exactly the wrapped
notifier's `send(m)`. -/
theorem decorator_base_forwards :
    (∀ b : Beverage, cost (Beverage.addon b) = cost b ∧
      description (Beverage.addon b) = description b) ∧
    (∀ (n : Notifier) (m : String),
      sendTrace (Notifier.deco n) m = sendTrace n m) :=
  ⟨fun _ => ⟨rfl, rfl⟩, fun _ _ => rfl⟩

/-- C7: wrapping never mutates the wrapped object and yields a new
chain: the decorator stores exactly the original component, whose
operations are unchanged, the wrap is a distinct object, and the bare
`Coffee` still reports cost 50 and "Plain Coffee". -/
theorem wrap_is_immutable (d : Deco) (b : Beverage) :
    unwrap (d.wrap b) = some b ∧
    cost b = cost b ∧ description b = description b ∧
    d.wrap b ≠ b ∧
    cost Beverage.coffee = 50 ∧
    description Beverage.coffee = "Plain Coffee" := by
  refine ⟨by cases d <;> rfl, rfl, rfl, ?_, rfl, rfl⟩
  intro h
  have := congrArg depth h
  rw [depth_wrap] at this
  exact Nat.succ_ne_self (depth b) this

/-- C8: every concrete notification decorator runs the wrapped
`send(message)` to completion before printing its own line, so the
console lines of a chain appear innermost-first and the outermost
decorator's line is always last. -/
theorem concrete_send_order (n : Notifier) (m : String) :
    sendTrace (Notifier.email n) m = sendTrace n m ++ [emailLine m] ∧
    sendTrace (Notifier.sms n) m = sendTrace n m ++ [smsLine m] ∧
    sendTrace (Notifier.push n) m = sendTrace n m ++ [pushLine m] ∧
    (sendTrace (Notifier.email n) m).getLast? = some (emailLine m) ∧
    (sendTrace (Notifier.sms n) m).getLast? = some (smsLine m) ∧
    (sendTrace (Notifier.push n) m).getLast? = some (pushLine m) := by
  refine ⟨rfl, rfl, rfl, ?_, ?_, ?_⟩ <;>
    simp [sendTrace, List.getLast?_concat]

/-- C9: every `Singleton()` call returns the identical instance — with
the instance already set to `i`, a call returns `i` and leaves the
state at `i`; any sequence of calls in state `i` returns `i` every
time; and a sequence started with no instance returns the first
allocated id from then on, the instance never being replaced. -/
theorem singleton_identical_instance (i f : Nat) (fs : List Nat) :
    singletonNew (some i) f = (i, some i) ∧
    (runNews (some i) fs).all (fun r => r == i) = true ∧
    (runNews none (f :: fs)).all (fun r => r == f) = true := by
  refine ⟨rfl, ?_, ?_⟩
  · simp [runNews_some, List.all_eq_true]
  · simp [runNews, singletonNew, runNews_some, List.all_eq_true]

/-- C10: for each recognized type string, `get_notification_factory`
returns the corresponding concrete `Notification` product — not a
`NotificationFactory` — and that product's `notify(message)` prints the
corresponding channel line. -/
theorem factory_returns_products (m : String) :
    get_notification_factory "email" = .ok NotifObj.emailNotification ∧
    get_notification_factory "sms" = .ok NotifObj.smsNotification ∧
    get_notification_factory "push" = .ok NotifObj.pushNotification ∧
    NotifObj.emailNotification.isProduct = true ∧
    NotifObj.smsNotification.isProduct = true ∧
    NotifObj.pushNotification.isProduct = true ∧
    NotifObj.emailNotification.notify m = some ("📧 Sending Email: " ++ m) ∧
    NotifObj.smsNotification.notify m = some ("📱 Sending SMS: " ++ m) ∧
    NotifObj.pushNotification.notify m
      = some ("📲 Sending Push Notification: " ++ m) :=
  ⟨rfl, rfl, rfl, rfl, rfl, rfl, rfl, rfl, rfl⟩

end DesignPattern
